import Mathlib

/-!
# Tasks-Manager: verification of the spec against the frontend source

Shallow embedding of the Tasks-Manager repository (React frontend:
`frontend/src/api.js` and the main `App.js` component file; Flask backend
described by the spec and README but not present in the source tree).

Conventions of the embedding:
* JavaScript values that can be `null`/`undefined` or a string are modelled
  as `Option String`; `none` stands for both `null` and `undefined`
  (they are both falsy and the code never distinguishes them in a way the
  claims depend on).
* JSON values are modelled by the inductive `Json`; `JSON.parse` is an
  oracle parameter `parsed : Option Json` (`none` = the parse threw).
* React `useState` state is modelled by explicit records; each event
  handler becomes a pure function from the old state (plus the server's
  responses, passed as oracles) to the new state, together with the list
  of API calls it issues.
-/

/-- JSON values as the client sees them after `JSON.parse`.  `null` also
stands for JavaScript `undefined` (property access misses): both are falsy
and the embedded code only ever reads such a value under a truthiness
guard. -/
inductive Json where
  | null : Json
  | bool (b : Bool) : Json
  | num (n : Int) : Json
  | str (s : String) : Json
  | arr (elems : List Json) : Json
  | obj (fields : List (String × Json)) : Json

/-- JavaScript truthiness of a JSON value: `null`/`undefined`, `false`,
`0` and `""` are falsy; every object and array is truthy. -/
def Json.truthy : Json → Bool
  | .null => false
  | .bool b => b
  | .num n => n != 0
  | .str s => s != ""
  | .arr _ => true
  | .obj _ => true

/-- JavaScript property access `j[k]`: field lookup on an object, and
`undefined` (modelled as `.null`) on a missing field or a non-object. -/
def Json.getProp (j : Json) (k : String) : Json :=
  match j with
  | .obj fields =>
    match fields.find? (fun p => p.1 == k) with
    | some p => p.2
    | none => .null
  | _ => .null

mutual

/-- JavaScript `String(v)` coercion, as performed by `new Error(message)`
when the message is not already a string. -/
def Json.toJsString : Json → String
  | .null => "null"
  | .bool b => cond b "true" "false"
  | .num n => toString n
  | .str s => s
  | .arr elems => Json.arrToJsString elems
  | .obj _ => "[object Object]"

/-- Source `Array.prototype.toString`: elements joined with commas, with `null`
and `undefined` elements rendered as the empty string. -/
def Json.arrToJsString : List Json → String
  | [] => ""
  | [e] =>
    match e with
    | .null => ""
    | e => Json.toJsString e
  | e :: rest =>
    (match e with
     | .null => ""
     | e => Json.toJsString e) ++ "," ++ Json.arrToJsString rest

end

/-- The parts of a `fetch` `Response` that `http` in `api.js` reads:
`res.ok`, `res.status`, `res.statusText`, and the body text obtained by
`await res.text()`. -/
structure FetchResponse where
  ok : Bool
  status : Nat
  statusText : String
  text : String

/-- The error object thrown by `http` on a non-ok response:
`new Error(message)` with `err.status` and `err.payload` attached. -/
structure JsError where
  message : String
  status : Nat
  payload : Json

/-- Source `api.js` `http`, body computation:
`body = text ? JSON.parse(text) : null`, with a parse failure caught and
the raw text kept as the body.  `parsed` is the oracle result of
`JSON.parse text` (`none` = the parse threw). -/
def httpBody (text : String) (parsed : Option Json) : Json :=
  if text = "" then .null
  else
    match parsed with
    | some j => j
    | none => .str text

/-- Source `api.js` `http`, error-message selection on a non-ok response:
`body && body.error && body.error.message ? body.error.message
: res.statusText`, with the JavaScript `String` coercion applied by
`new Error`. -/
def httpErrorMessage (body : Json) (statusText : String) : String :=
  if body.truthy && (body.getProp "error").truthy
      && ((body.getProp "error").getProp "message").truthy then
    ((body.getProp "error").getProp "message").toJsString
  else statusText

/-- Source `api.js` `http`: resolves with the (possibly partially parsed) body on
an ok response, and throws a `JsError` carrying the selected message, the
HTTP status and the body as payload otherwise. -/
def http (res : FetchResponse) (parsed : Option Json) : Except JsError Json :=
  let body := httpBody res.text parsed
  if res.ok then .ok body
  else .error ⟨httpErrorMessage body res.statusText, res.status, body⟩

/-- The thrown error of an `http` outcome, if any. -/
def httpError : Except JsError Json → Option JsError
  | .error e => some e
  | .ok _ => none

example :
    http ⟨false, 404, "Not Found",
      "x"⟩ (some (.obj [("error", .obj [("message", .str "Task not found")])]))
      = .error ⟨"Task not found", 404,
          .obj [("error", .obj [("message", .str "Task not found")])]⟩ := rfl

example : http ⟨true, 204, "No Content", ""⟩ none = .ok .null := rfl

/-! ## Client-side entities (as the App component consumes them) -/

/-- A task as the client receives it.  `description` and the timestamps
are optional because the component reads them defensively
(`task.created_at?.…`, `task?.description || ''`). -/
structure CTask where
  id : Nat
  title : String
  description : Option String := none
  created_at : Option String := none
  updated_at : Option String := none
deriving DecidableEq

/-- A comment as the client receives it; `author` is `none` when the JSON
field is `null` or absent. -/
structure CComment where
  id : Nat
  task_id : Nat
  content : String
  author : Option String := none
deriving DecidableEq

/-! ## C2: author rendering and the author fields sent by the forms -/

/-- Source `EditableComment` display branch: `c.author || 'Anonymous'`
(JavaScript `||`: falls through on `null`, `undefined` and `""`). -/
def renderAuthor (author : Option String) : String :=
  match author with
  | some s => if s = "" then "Anonymous" else s
  | none => "Anonymous"

/-- Source `CommentList.add`: the `author` field of the create-comment body,
`author || undefined` applied to the author input state (a string).
`JSON.stringify` drops an `undefined` field, so the serialized body has no
`author` key: absent, not `""`. -/
def addFormAuthor (author : String) : Option String :=
  if author = "" then none else some author

/-- Source `EditableComment.save`: the `author` field of the update-comment body,
`author || null` applied to the author input state.  Serialized as
`author: null`: absent value, not `""`. -/
def saveFormAuthor (author : String) : Option String :=
  if author = "" then none else some author

/-- Source `EditableComment` initial author input state: `c.author || ''`. -/
def initAuthorInput (author : Option String) : String :=
  match author with
  | some s => s
  | none => ""

/-! ## C7: timestamp display transformation -/

/-- JavaScript `s.replace('T', ' ')` on the character level: replaces the
first occurrence only. -/
def replaceFirstChar (pat repl : Char) : List Char → List Char
  | [] => []
  | c :: cs => if c = pat then repl :: cs else c :: replaceFirstChar pat repl cs

/-- Source `TaskDetail` timestamp display:
`ts.replace('T', ' ').slice(0, 19)`. -/
def displayTimestamp (ts : String) : String :=
  String.mk ((replaceFirstChar 'T' ' ' ts.data).take 19)

example : displayTimestamp "2024-01-02T03:04:05.123456" = "2024-01-02 03:04:05" := rfl

/-! ## C8: the requests issued by the eight API functions -/

/-- The HTTP method and path an `api.js` function passes to `fetch`
(with the default base URL `""`; `fetch` defaults to method GET when the
options carry none). -/
structure ApiRequest where
  method : String
  path : String
deriving DecidableEq

/-- Source `listTasks()`: `http("/api/tasks")`. -/
def listTasksReq : ApiRequest := ⟨"GET", "/api/tasks"⟩

/-- Source `createTask(body)`: `http("/api/tasks", {method: "POST", …})`. -/
def createTaskReq : ApiRequest := ⟨"POST", "/api/tasks"⟩

/-- Source `updateTask(id, body)`: PUT to a template-interpolated path. -/
def updateTaskReq (id : Nat) : ApiRequest :=
  ⟨"PUT", "/api/tasks/" ++ toString id⟩

/-- Source `deleteTask(id)`: DELETE to a template-interpolated path. -/
def deleteTaskReq (id : Nat) : ApiRequest :=
  ⟨"DELETE", "/api/tasks/" ++ toString id⟩

/-- Source `listComments(taskId)`. -/
def listCommentsReq (taskId : Nat) : ApiRequest :=
  ⟨"GET", "/api/tasks/" ++ toString taskId ++ "/comments"⟩

/-- Source `createComment(taskId, body)`. -/
def createCommentReq (taskId : Nat) : ApiRequest :=
  ⟨"POST", "/api/tasks/" ++ toString taskId ++ "/comments"⟩

/-- Source `updateComment(taskId, commentId, body)`. -/
def updateCommentReq (taskId commentId : Nat) : ApiRequest :=
  ⟨"PUT", "/api/tasks/" ++ toString taskId ++ "/comments/" ++ toString commentId⟩

/-- Source `deleteComment(taskId, commentId)`. -/
def deleteCommentReq (taskId commentId : Nat) : ApiRequest :=
  ⟨"DELETE", "/api/tasks/" ++ toString taskId ++ "/comments/" ++ toString commentId⟩

/-- The spec's interface table (§6), written from the spec's words: method
column, path column with `:id`-style placeholders replaced by the
interpolated id.  Used to compare the code-side requests against the
table. -/
def specRouteTable (id taskId commentId : Nat) : List ApiRequest :=
  [ ⟨"GET", "/api/tasks"⟩,
    ⟨"POST", "/api/tasks"⟩,
    ⟨"PUT", "/api/tasks/" ++ toString id⟩,
    ⟨"DELETE", "/api/tasks/" ++ toString id⟩,
    ⟨"GET", "/api/tasks/" ++ toString taskId ++ "/comments"⟩,
    ⟨"POST", "/api/tasks/" ++ toString taskId ++ "/comments"⟩,
    ⟨"PUT", "/api/tasks/" ++ toString taskId ++ "/comments/" ++ toString commentId⟩,
    ⟨"DELETE", "/api/tasks/" ++ toString taskId ++ "/comments/" ++ toString commentId⟩ ]

/-! ## App component state and handlers (C4, C5, C9) -/

/-- JavaScript falsiness of the `selectedId` state (`null` or a number):
`!selectedId` is true for `null` and for the number `0`. -/
def jsFalsyId : Option Nat → Bool
  | none => true
  | some n => n == 0

/-- The `App` component's state: the cached task list and the selected
task id (`null` initially). -/
structure AppState where
  tasks : List CTask
  selectedId : Option Nat
deriving DecidableEq

/-- Source `App.fetchTasks` state update after a successful `listTasks` call
returning `res`: `setTasks(res.data)`, then
`if (res.data.length && !selectedId) setSelectedId(res.data[0].id)`. -/
def fetchTasksApply (res : List CTask) (st : AppState) : AppState :=
  { tasks := res,
    selectedId :=
      match res with
      | [] => st.selectedId
      | t :: _ => if jsFalsyId st.selectedId then some t.id else st.selectedId }

/-- Source `App.addTask` state update after a successful `createTask` returning
`newTask`: `setTasks(prev => [...prev, newTask]); setSelectedId(newTask.id)`. -/
def addTaskApply (newTask : CTask) (st : AppState) : AppState :=
  { tasks := st.tasks ++ [newTask], selectedId := some newTask.id }

/-- Source `App.removeTask` state update after a successful `deleteTask(id)`:
`setTasks(prev => prev.filter(t => t.id !== id));
if (selectedId === id) setSelectedId(null)`. -/
def removeTaskApply (id : Nat) (st : AppState) : AppState :=
  { tasks := st.tasks.filter (fun t => t.id != id),
    selectedId := if st.selectedId = some id then none else st.selectedId }

/-- Source `App.saveTask` state update after a successful `updateTask(id, body)`
returning `updated`:
`setTasks(prev => prev.map(t => (t.id === id ? updated : t)))`. -/
def saveTaskApply (id : Nat) (updated : CTask) (st : AppState) : AppState :=
  { tasks := st.tasks.map (fun t => if t.id = id then updated else t),
    selectedId := st.selectedId }

/-! ## C6: API-call traces of the mutation handlers -/

/-- One call to an `api.js` function, with the arguments the component
passes (request bodies reduced to the fields the component fills in). -/
inductive ApiCall where
  | listTasks : ApiCall
  | createTask (title : String) (description : Option String) : ApiCall
  | updateTask (id : Nat) (title description : String) : ApiCall
  | deleteTask (id : Nat) : ApiCall
  | listComments (taskId : Nat) : ApiCall
  | createComment (taskId : Nat) (content : String) (author : Option String) : ApiCall
  | updateComment (taskId commentId : Nat) (content : String) (author : Option String) : ApiCall
  | deleteComment (taskId commentId : Nat) : ApiCall
deriving DecidableEq

/-- Whether a call is a read (re-fetch) of a list resource. -/
def ApiCall.isListCall : ApiCall → Bool
  | .listTasks => true
  | .listComments _ => true
  | _ => false

/-- The `CommentList` component's state. -/
structure CommentListState where
  comments : List CComment
  content : String
  author : String
deriving DecidableEq

/-- Source `CommentList.add` on the success path (the `createComment` call did
not throw): issues `createComment` with the form fields (`author`
falsy-defaulted to absent), clears both inputs, then awaits
`fetchComments`, which issues `listComments(taskId)` and replaces the
comment list with the response's `data` (the oracle `fetched`).
Returns the trace of API calls alongside the new state. -/
def commentAdd (taskId : Nat) (st : CommentListState) (fetched : List CComment) :
    List ApiCall × CommentListState :=
  ([.createComment taskId st.content (addFormAuthor st.author),
    .listComments taskId],
   { comments := fetched, content := "", author := "" })

/-- Source `CommentList.add` when `createComment` throws: the error is caught,
the inputs are kept, and no re-fetch happens. -/
def commentAddFailed (taskId : Nat) (st : CommentListState) :
    List ApiCall × CommentListState :=
  ([.createComment taskId st.content (addFormAuthor st.author)], st)

/-- Source `CommentList.save` on the success path: `updateComment` with the body
built by `EditableComment.save` (`{content, author: author || null}`),
then the `fetchComments` re-fetch replacing the list. -/
def commentSave (taskId commentId : Nat) (content author : String)
    (st : CommentListState) (fetched : List CComment) :
    List ApiCall × CommentListState :=
  ([.updateComment taskId commentId content (saveFormAuthor author),
    .listComments taskId],
   { st with comments := fetched })

/-- Source `CommentList.remove` on the success path: `deleteComment`, then the
`fetchComments` re-fetch replacing the list. -/
def commentRemove (taskId commentId : Nat)
    (st : CommentListState) (fetched : List CComment) :
    List ApiCall × CommentListState :=
  ([.deleteComment taskId commentId, .listComments taskId],
   { st with comments := fetched })

/-- Source `App.addTask` as a traced handler: one `createTask` call, local patch
from the returned entity, no re-fetch. -/
def appAddTask (title : String) (description : Option String)
    (newTask : CTask) (st : AppState) : List ApiCall × AppState :=
  ([.createTask title description], addTaskApply newTask st)

/-- Source `App.saveTask` as a traced handler: one `updateTask` call, local patch
from the returned entity, no re-fetch. -/
def appSaveTask (id : Nat) (title description : String)
    (updated : CTask) (st : AppState) : List ApiCall × AppState :=
  ([.updateTask id title description], saveTaskApply id updated st)

/-! ## Server model (C1)

The Flask backend is not part of the shipped source tree (only the
README describes it), so the data/API layer is modelled from the spec's
§3–§4.1. -/

/-- Modelled from the spec: a persisted Task row (backend source absent;
spec §3).  Timestamps are omitted: no claim settled against this model
mentions them. -/
structure STask where
  id : Nat
  title : String
  description : Option String
deriving DecidableEq

/-- Modelled from the spec: a persisted Comment row with its non-nullable
`task_id` foreign key (backend source absent; spec §3). -/
structure SComment where
  id : Nat
  task_id : Nat
  content : String
  author : Option String
deriving DecidableEq

/-- Modelled from the spec: the error kinds of §7 that the modelled
operations raise. -/
inductive APIError where
  | validation
  | notFound
deriving DecidableEq

/-- Modelled from the spec: the persistent store, with counters for the
server-assigned, never-reused ids. -/
structure ServerState where
  tasks : List STask
  comments : List SComment
  nextTaskId : Nat
  nextCommentId : Nat
deriving DecidableEq

/-- The empty store the backend starts from (fresh SQLite database). -/
def initServer : ServerState := ⟨[], [], 1, 1⟩

/-- Whether a task with the given id exists. -/
def taskExists (s : ServerState) (id : Nat) : Bool :=
  s.tasks.any (fun t => t.id == id)

/-- Modelled from the spec: `createTask({title, description?})` — fails
with ValidationError if `title` missing/empty, else persists a new row
with a fresh id (spec §4.1). -/
def srvCreateTask (s : ServerState) (title : String) (description : Option String) :
    Except APIError STask × ServerState :=
  if title = "" then (.error .validation, s)
  else
    let t : STask := ⟨s.nextTaskId, title, description⟩
    (.ok t, { s with tasks := s.tasks ++ [t], nextTaskId := s.nextTaskId + 1 })

/-- Modelled from the spec: `updateTask(id, {title?, description?})` —
NotFoundError if missing, ValidationError if the resulting title would be
empty, else a full-field update of the row (spec §4.1). -/
def srvUpdateTask (s : ServerState) (id : Nat)
    (title : Option String) (description : Option (Option String)) :
    Except APIError STask × ServerState :=
  match s.tasks.find? (fun t => t.id == id) with
  | none => (.error .notFound, s)
  | some t =>
    let newTitle := title.getD t.title
    if newTitle = "" then (.error .validation, s)
    else
      let t' : STask := ⟨t.id, newTitle, description.getD t.description⟩
      (.ok t', { s with tasks := s.tasks.map (fun u => if u.id = id then t' else u) })

/-- Modelled from the spec: `deleteTask(id)` — NotFoundError if missing;
otherwise removes the task and, atomically in the same step, every
Comment referencing it (cascade, spec §4.1 and §3). -/
def srvDeleteTask (s : ServerState) (id : Nat) :
    Except APIError Unit × ServerState :=
  if taskExists s id then
    (.ok (),
     { s with tasks := s.tasks.filter (fun t => t.id != id),
              comments := s.comments.filter (fun c => c.task_id != id) })
  else (.error .notFound, s)

/-- Modelled from the spec: `listComments(taskId)` — NotFoundError if the
task is missing, else the comments of that task only (spec §4.1). -/
def srvListComments (s : ServerState) (taskId : Nat) :
    Except APIError (List SComment) :=
  if taskExists s taskId then
    .ok (s.comments.filter (fun c => c.task_id == taskId))
  else .error .notFound

/-- Modelled from the spec: `createComment(taskId, {content, author?})` —
NotFoundError if the task is missing (checked before content validation),
ValidationError if the content is empty or over 1000 characters, else a
new row referencing the task (spec §4.1). -/
def srvCreateComment (s : ServerState) (taskId : Nat)
    (content : String) (author : Option String) :
    Except APIError SComment × ServerState :=
  if ¬taskExists s taskId then (.error .notFound, s)
  else if content = "" ∨ content.length > 1000 then (.error .validation, s)
  else
    let c : SComment := ⟨s.nextCommentId, taskId, content, author⟩
    (.ok c, { s with comments := s.comments ++ [c],
                     nextCommentId := s.nextCommentId + 1 })

/-- Modelled from the spec: `updateComment(taskId, commentId,
{content?, author?})` — NotFoundError if the task or comment is missing or
the comment does not belong to that task, ValidationError on invalid
resulting content, else an in-place update that keeps `id` and `task_id`
(spec §4.1). -/
def srvUpdateComment (s : ServerState) (taskId commentId : Nat)
    (content : Option String) (author : Option (Option String)) :
    Except APIError SComment × ServerState :=
  if ¬taskExists s taskId then (.error .notFound, s)
  else
    match s.comments.find? (fun c => c.id == commentId) with
    | none => (.error .notFound, s)
    | some c =>
      if c.task_id ≠ taskId then (.error .notFound, s)
      else
        let newContent := content.getD c.content
        if newContent = "" ∨ newContent.length > 1000 then (.error .validation, s)
        else
          let c' : SComment := ⟨c.id, c.task_id, newContent, author.getD c.author⟩
          (.ok c',
           { s with comments := s.comments.map (fun u => if u.id = commentId then c' else u) })

/-- Modelled from the spec: `deleteComment(taskId, commentId)` — same
not-found semantics as update, else removes the row (spec §4.1). -/
def srvDeleteComment (s : ServerState) (taskId commentId : Nat) :
    Except APIError Unit × ServerState :=
  if ¬taskExists s taskId then (.error .notFound, s)
  else
    match s.comments.find? (fun c => c.id == commentId) with
    | none => (.error .notFound, s)
    | some c =>
      if c.task_id ≠ taskId then (.error .notFound, s)
      else (.ok (), { s with comments := s.comments.filter (fun u => u.id != commentId) })

/-- One mutating API operation, for quantifying over request histories. -/
inductive SOp where
  | createTask (title : String) (description : Option String)
  | updateTask (id : Nat) (title : Option String) (description : Option (Option String))
  | deleteTask (id : Nat)
  | createComment (taskId : Nat) (content : String) (author : Option String)
  | updateComment (taskId commentId : Nat) (content : Option String)
      (author : Option (Option String))
  | deleteComment (taskId commentId : Nat)

/-- Applying one operation to the store (a failed operation leaves the
store unchanged — each `srv*` function already returns the old state on
error, so every write is all-or-nothing). -/
def applySOp (s : ServerState) : SOp → ServerState
  | .createTask title d => (srvCreateTask s title d).2
  | .updateTask id t d => (srvUpdateTask s id t d).2
  | .deleteTask id => (srvDeleteTask s id).2
  | .createComment tid c a => (srvCreateComment s tid c a).2
  | .updateComment tid cid c a => (srvUpdateComment s tid cid c a).2
  | .deleteComment tid cid => (srvDeleteComment s tid cid).2

/-- The store reached from a fresh database by a history of requests. -/
def runSOps (ops : List SOp) : ServerState :=
  ops.foldl applySOp initServer

/-- No orphaned Comment: every comment's `task_id` references an existing
task. -/
def orphanFree (s : ServerState) : Prop :=
  ∀ c ∈ s.comments, ∃ t ∈ s.tasks, t.id = c.task_id

/-! # Theorems -/

/-- C2, counterexample to the claim as stated: an empty-string author is
present (distinct from absent), yet the rendered author is `"Anonymous"`,
not the author value `""` — `c.author || 'Anonymous'` falls through on
every falsy value, the empty string included. -/
theorem renderAuthor_empty_string_counterexample :
    renderAuthor (some "") = "Anonymous" ∧ renderAuthor (some "") ≠ "" := by
  constructor
  · rfl
  · decide

/-- C2 (amended): the rendered author is `c.author` whenever the author is
a present non-empty string, and `"Anonymous"` whenever the author is
absent **or the empty string**; the create form (`author || undefined`)
and the edit form (`author || null`) never send an empty-string author —
an empty input becomes an absent value, and a non-empty input is sent
verbatim. -/
theorem author_rendering_and_forms (a : Option String) (s : String) :
    (s ≠ "" → renderAuthor (some s) = s) ∧
    ((a = none ∨ a = some "") → renderAuthor a = "Anonymous") ∧
    (addFormAuthor s ≠ some "") ∧
    (saveFormAuthor s ≠ some "") ∧
    (s ≠ "" → addFormAuthor s = some s ∧ saveFormAuthor s = some s) ∧
    (addFormAuthor "" = none ∧ saveFormAuthor "" = none) := by
  refine ⟨fun h => ?_, fun h => ?_, ?_, ?_, fun h => ⟨?_, ?_⟩, rfl, rfl⟩
  · simp [renderAuthor, h]
  · rcases h with h | h <;> simp [renderAuthor, h]
  · by_cases h : s = "" <;> simp [addFormAuthor, h]
  · by_cases h : s = "" <;> simp [saveFormAuthor, h]
  · simp [addFormAuthor, h]
  · simp [saveFormAuthor, h]

/-- C2 witness: the amended theorem applied to the author input `"bob"`. -/
theorem author_rendering_and_forms_witness :
    renderAuthor (some "bob") = "bob" :=
  (author_rendering_and_forms (some "bob") "bob").1 (by decide)

/-- C4: after `removeTask(id)` succeeds, no task with that id remains in
the local list and every other task survives; the selection is cleared
exactly when it pointed at the deleted id and kept otherwise. -/
theorem removeTask_removes_id_and_clears_selection (id : Nat) (st : AppState) :
    (∀ t ∈ (removeTaskApply id st).tasks, t.id ≠ id) ∧
    (∀ t ∈ st.tasks, t.id ≠ id → t ∈ (removeTaskApply id st).tasks) ∧
    (st.selectedId = some id → (removeTaskApply id st).selectedId = none) ∧
    (∀ j, st.selectedId = some j → j ≠ id →
      (removeTaskApply id st).selectedId = some j) ∧
    (st.selectedId = none → (removeTaskApply id st).selectedId = none) := by
  refine ⟨?_, ?_, fun h => ?_, fun j hj hne => ?_, fun h => ?_⟩
  · intro t ht
    simp [removeTaskApply, List.mem_filter] at ht
    exact ht.2
  · intro t ht hne
    simp [removeTaskApply, List.mem_filter]
    exact ⟨ht, hne⟩
  · simp [removeTaskApply, h]
  · simp [removeTaskApply, hj, hne]
  · simp [removeTaskApply, h]

/-- C4 witness: deleting the selected task id 2 from a two-task list. -/
theorem removeTask_witness :
    (removeTaskApply 2 ⟨[⟨1, "a", none, none, none⟩, ⟨2, "b", none, none, none⟩],
        some 2⟩).selectedId = none :=
  (removeTask_removes_id_and_clears_selection 2
    ⟨[⟨1, "a", none, none, none⟩, ⟨2, "b", none, none, none⟩], some 2⟩).2.2.1 rfl

/-- C5, counterexample to the claim as stated: with an existing selection
`some 0`, fetching a non-empty list overwrites the selection — the guard
is the JavaScript falsiness test `!selectedId`, which treats the id `0`
like `null`. -/
theorem fetchTasks_selection_counterexample :
    (fetchTasksApply [⟨1, "t", none, none, none⟩]
        ⟨[], some 0⟩).selectedId ≠ (⟨[], some 0⟩ : AppState).selectedId := by
  decide

/-- C5 (amended): on load, the fetched list replaces the local one; the
selection is unchanged when the list is empty or when a selection with a
**nonzero** id exists, and becomes the first returned task's id when the
list is non-empty and the current selection is JavaScript-falsy (`null`
or the id `0`). -/
theorem fetchTasks_selects_first (res : List CTask) (st : AppState) :
    (fetchTasksApply res st).tasks = res ∧
    (res = [] → (fetchTasksApply res st).selectedId = st.selectedId) ∧
    (∀ j, st.selectedId = some j → j ≠ 0 →
      (fetchTasksApply res st).selectedId = st.selectedId) ∧
    (∀ t rest, res = t :: rest → jsFalsyId st.selectedId = true →
      (fetchTasksApply res st).selectedId = some t.id) := by
  refine ⟨rfl, fun h => ?_, fun j hj hne => ?_, fun t rest hres hf => ?_⟩
  · simp [fetchTasksApply, h]
  · have : jsFalsyId st.selectedId = false := by
      rw [hj]; simpa [jsFalsyId] using hne
    cases res <;> simp [fetchTasksApply, this]
  · simp [fetchTasksApply, hres, hf]

/-- C5 witness: the amended theorem applied to an empty initial state
receiving one task. -/
theorem fetchTasks_selects_first_witness :
    (fetchTasksApply [⟨7, "t", none, none, none⟩] ⟨[], none⟩).selectedId = some 7 :=
  (fetchTasks_selects_first [⟨7, "t", none, none, none⟩] ⟨[], none⟩).2.2.2
    ⟨7, "t", none, none, none⟩ [] rfl rfl

/-- C8: the eight `api.js` functions issue exactly the method/path pairs
of the spec's interface table, with the ids interpolated into the
`:id`/`:taskId`/`:commentId` positions. -/
theorem api_requests_match_spec_table (id taskId commentId : Nat) :
    [listTasksReq, createTaskReq, updateTaskReq id, deleteTaskReq id,
     listCommentsReq taskId, createCommentReq taskId,
     updateCommentReq taskId commentId, deleteCommentReq taskId commentId]
      = specRouteTable id taskId commentId := rfl

/-- C9: after a successful `createTask`, the returned task is appended at
the end of the local list (the previous tasks unchanged, in place) and
becomes the selected task. -/
theorem addTask_appends_and_selects (newTask : CTask) (st : AppState) :
    (addTaskApply newTask st).tasks = st.tasks ++ [newTask] ∧
    (addTaskApply newTask st).selectedId = some newTask.id :=
  ⟨rfl, rfl⟩

/-- C6: every successful comment mutation ends its call trace with the
targeted re-fetch `listComments(taskId)` and replaces the local comment
list with the fetched result, while the task mutations `createTask` and
`updateTask` issue no list call at all and patch the local task list from
the returned entity (`addTaskApply` / `saveTaskApply`, the source's local
updates). -/
theorem comment_mutations_refetch_task_mutations_patch
    (taskId commentId id : Nat) (st : CommentListState) (ast : AppState)
    (content author title descr : String) (d : Option String)
    (fetched : List CComment) (newTask updated : CTask) :
    ((commentAdd taskId st fetched).1.getLast? = some (.listComments taskId) ∧
      (commentAdd taskId st fetched).2.comments = fetched) ∧
    ((commentSave taskId commentId content author st fetched).1.getLast?
        = some (.listComments taskId) ∧
      (commentSave taskId commentId content author st fetched).2.comments = fetched) ∧
    ((commentRemove taskId commentId st fetched).1.getLast?
        = some (.listComments taskId) ∧
      (commentRemove taskId commentId st fetched).2.comments = fetched) ∧
    ((∀ call ∈ (appAddTask title d newTask ast).1, call.isListCall = false) ∧
      (appAddTask title d newTask ast).2 = addTaskApply newTask ast) ∧
    ((∀ call ∈ (appSaveTask id title descr updated ast).1, call.isListCall = false) ∧
      (appSaveTask id title descr updated ast).2 = saveTaskApply id updated ast) := by
  refine ⟨⟨rfl, rfl⟩, ⟨rfl, rfl⟩, ⟨rfl, rfl⟩, ⟨?_, rfl⟩, ⟨?_, rfl⟩⟩
  · intro call hc
    simp [appAddTask] at hc
    simp [hc, ApiCall.isListCall]
  · intro call hc
    simp [appSaveTask] at hc
    simp [hc, ApiCall.isListCall]

/-- C6 witness: the theorem at concrete arguments — adding a comment to
task 1 re-fetches that task's comments. -/
theorem comment_mutations_refetch_witness :
    (commentAdd 1 ⟨[], "hi", ""⟩ []).1.getLast? = some (.listComments 1) :=
  (comment_mutations_refetch_task_mutations_patch 1 2 3 ⟨[], "hi", ""⟩
    ⟨[], none⟩ "c" "a" "t" "d" none [] ⟨4, "n", none, none, none⟩
    ⟨5, "u", none, none, none⟩).1.1

/-- C10: on an ok response `http` resolves to `null` for an empty body,
to the parsed JSON for a non-empty parseable body, and to the raw text
for an unparseable body (so the DELETE endpoints' 204/empty responses
resolve to `null`); on a non-ok response the thrown error carries the
HTTP status in `err.status` and the (partially) parsed body in
`err.payload`. -/
theorem http_resolution_and_error_payload (res : FetchResponse) (parsed : Option Json) :
    (res.ok = true → res.text = "" → http res parsed = .ok .null) ∧
    (res.ok = true → res.text ≠ "" → ∀ j, parsed = some j → http res parsed = .ok j) ∧
    (res.ok = true → res.text ≠ "" → parsed = none →
      http res parsed = .ok (.str res.text)) ∧
    (res.ok = false → httpError (http res parsed) =
      some ⟨httpErrorMessage (httpBody res.text parsed) res.statusText,
            res.status, httpBody res.text parsed⟩) := by
  refine ⟨fun hok ht => ?_, fun hok ht j hp => ?_, fun hok ht hp => ?_, fun hok => ?_⟩
  · simp [http, httpBody, hok, ht]
  · simp [http, httpBody, hok, ht, hp]
  · simp [http, httpBody, hok, ht, hp]
  · simp [http, httpError, hok]

/-- C10 witness: a 204-style empty success resolves to `null`. -/
theorem http_resolution_witness :
    http ⟨true, 204, "No Content", ""⟩ none = .ok .null :=
  (http_resolution_and_error_payload ⟨true, 204, "No Content", ""⟩ none).1 rfl rfl

/-- C3, counterexample to the claim as stated: a non-ok response whose
body has exactly the error shape `{error: {message: ""}}` does **not**
surface the server-supplied message `""` — the truthiness guard
`body.error.message` falls through on the empty string and the thrown
message is the status text instead. -/
theorem http_error_message_counterexample :
    (httpError (http ⟨false, 400, "Bad Request", "body"⟩
        (some (.obj [("error", .obj [("message", .str "")])])))).map JsError.message
      = some "Bad Request" ∧ some "Bad Request" ≠ some "" := by
  constructor
  · rfl
  · simp

/-- C3 (amended): on a non-ok response the thrown message is the
server-supplied `body.error.message` whenever the body has the error
shape with a **non-empty** message, and the HTTP status text otherwise —
in particular when the body is empty, when it is unparseable, and when
the shaped message is the empty string. -/
theorem http_error_message_selection (res : FetchResponse) (parsed : Option Json)
    (m : String) :
    (res.ok = false →
      ((httpBody res.text parsed).getProp "error").getProp "message" = .str m →
      m ≠ "" →
      (httpError (http res parsed)).map JsError.message = some m) ∧
    (res.ok = false → res.text = "" →
      (httpError (http res parsed)).map JsError.message = some res.statusText) ∧
    (res.ok = false → parsed = none →
      (httpError (http res parsed)).map JsError.message = some res.statusText) ∧
    (res.ok = false →
      ((httpBody res.text parsed).getProp "error").getProp "message" = .str "" →
      (httpError (http res parsed)).map JsError.message = some res.statusText) := by
  refine ⟨fun hok hshape hm => ?_, fun hok ht => ?_, fun hok hp => ?_,
    fun hok hshape => ?_⟩
  · have herr : ∃ fs, (httpBody res.text parsed).getProp "error" = .obj fs := by
      cases he : (httpBody res.text parsed).getProp "error" <;>
        rw [he] at hshape <;> simp [Json.getProp] at hshape
      exact ⟨_, rfl⟩
    obtain ⟨fs, hfs⟩ := herr
    have hbody : ∃ bs, httpBody res.text parsed = .obj bs := by
      cases hb : httpBody res.text parsed <;> rw [hb] at hfs <;>
        simp [Json.getProp] at hfs
      exact ⟨_, rfl⟩
    obtain ⟨bs, hbs⟩ := hbody
    simp only [http, httpError, hok, Bool.false_eq_true, if_false, Option.map_some]
    rw [httpErrorMessage]
    rw [hbs] at hshape hfs ⊢
    rw [hfs] at hshape ⊢
    rw [hshape]
    simp [Json.truthy, hm, Json.toJsString]
  · have hb : httpBody res.text parsed = .null := by simp [httpBody, ht]
    simp [http, httpError, hok, httpErrorMessage, hb, Json.truthy]
  · by_cases h : res.text = ""
    · have hb : httpBody res.text parsed = .null := by simp [httpBody, h]
      simp [http, httpError, hok, httpErrorMessage, hb, Json.truthy]
    · have hb : httpBody res.text parsed = .str res.text := by
        simp [httpBody, h, hp]
      simp [http, httpError, hok, httpErrorMessage, hb, Json.truthy, Json.getProp]
  · simp only [http, httpError, hok, Bool.false_eq_true, if_false, Option.map_some]
    rw [httpErrorMessage, hshape]
    simp [Json.truthy]

/-- Source `replace('T', ' ')` replaces the first occurrence: it passes over a
prefix free of the pattern and rewrites the pattern character after it. -/
theorem replaceFirstChar_append (pat repl : Char) (l r : List Char)
    (h : pat ∉ l) :
    replaceFirstChar pat repl (l ++ pat :: r) = l ++ repl :: r := by
  induction l with
  | nil => simp [replaceFirstChar]
  | cons c cs ih =>
    rw [List.mem_cons, not_or] at h
    obtain ⟨h1, h2⟩ := h
    simp only [List.cons_append, replaceFirstChar]
    rw [if_neg (fun hc => h1 hc.symm)]
    exact congrArg (List.cons c) (ih h2)

/-- C7: for a timestamp of the form `YYYY-MM-DDTHH:MM:SS` followed by any
fractional-seconds or zone suffix, the display transformation — first
`'T'` replaced by a space, then the first 19 characters — yields exactly
`YYYY-MM-DD HH:MM:SS`. -/
theorem displayTimestamp_iso (d t rest : String)
    (hd : d.length = 10) (hdc : ∀ c ∈ d.data, c.isDigit ∨ c = '-')
    (ht : t.length = 8) :
    displayTimestamp (d ++ "T" ++ t ++ rest) = d ++ " " ++ t := by
  have hT : 'T' ∉ d.data := by
    intro hmem
    rcases hdc 'T' hmem with h | h
    · exact absurd h (by decide)
    · exact absurd h (by decide)
  have hdata : (d ++ "T" ++ t ++ rest).data
      = d.data ++ 'T' :: (t.data ++ rest.data) := by
    show (d.data ++ "T".data ++ t.data ++ rest.data : List Char) = _
    simp
  have hdl : d.data.length = 10 := hd
  have htl : t.data.length = 8 := ht
  apply String.ext
  show ((replaceFirstChar 'T' ' ' (d ++ "T" ++ t ++ rest).data).take 19)
      = (d ++ " " ++ t).data
  rw [hdata, replaceFirstChar_append 'T' ' ' d.data _ hT]
  have h19 : 19 = d.data.length + 9 := by rw [hdl]
  rw [h19, List.take_append, List.take_cons]
  have h8 : 8 = t.data.length := htl.symm
  show (d.data ++ ' ' :: (t.data ++ rest.data).take 8 : List Char)
      = (d.data ++ " ".data ++ t.data : List Char)
  rw [h8, List.take_left]
  simp
  decide

/-- C7 witness: a concrete ISO-8601 timestamp with fractional seconds and
zone suffix. -/
theorem displayTimestamp_iso_witness :
    displayTimestamp ("2024-01-02" ++ "T" ++ "03:04:05" ++ ".123Z")
      = "2024-01-02" ++ " " ++ "03:04:05" :=
  displayTimestamp_iso "2024-01-02" "03:04:05" ".123Z" (by decide)
    (by decide) (by decide)

/-- Every single modelled API operation preserves the no-orphans
invariant: writes that keep the comment table only ever reference
existing tasks, task updates keep ids, and the cascade delete removes a
task and its comments in the same step. -/
theorem applySOp_orphanFree (s : ServerState) (op : SOp) (h : orphanFree s) :
    orphanFree (applySOp s op) := by
  cases op with
  | createTask title dsc =>
    simp only [applySOp, srvCreateTask]
    split
    · exact h
    · intro c hc
      obtain ⟨t, htm, hid⟩ := h c hc
      exact ⟨t, List.mem_append_left _ htm, hid⟩
  | updateTask id ttl dsc =>
    simp only [applySOp, srvUpdateTask]
    split
    next => exact h
    next t0 hf =>
      have ht0 : t0.id = id := by simpa using List.find?_some hf
      split
      next => exact h
      next =>
        intro c hc
        obtain ⟨t, htm, hid⟩ := h c hc
        refine ⟨_, List.mem_map_of_mem _ htm, ?_⟩
        by_cases hti : t.id = id
        · simpa [hti, ht0] using hid
        · simpa [hti] using hid
  | deleteTask id =>
    simp only [applySOp, srvDeleteTask]
    split
    · intro c hc
      rw [List.mem_filter] at hc
      obtain ⟨hcm, hcne⟩ := hc
      obtain ⟨t, htm, hid⟩ := h c hcm
      refine ⟨t, ?_, hid⟩
      rw [List.mem_filter]
      refine ⟨htm, ?_⟩
      have : c.task_id ≠ id := by simpa using hcne
      simpa [hid] using this
    · exact h
  | createComment tid cont auth =>
    simp only [applySOp, srvCreateComment]
    split
    next hnf => exact h
    next hnf =>
      have hex : taskExists s tid = true := by
        by_cases hx : taskExists s tid = true
        · exact hx
        · exact absurd (by simpa using hx) hnf
      split
      · exact h
      · intro c hc
        rcases List.mem_append.mp hc with hc | hc
        · obtain ⟨t, htm, hid⟩ := h c hc
          exact ⟨t, htm, hid⟩
        · rw [List.mem_singleton] at hc
          subst hc
          obtain ⟨t, htm, hp⟩ := by
            simpa [taskExists, List.any_eq_true] using hex
          exact ⟨t, htm, by simpa using hp⟩
  | updateComment tid cid cont auth =>
    simp only [applySOp, srvUpdateComment]
    split
    next => exact h
    next =>
      split
      next => exact h
      next c0 hf =>
        have hc0m : c0 ∈ s.comments := List.mem_of_find?_eq_some hf
        split
        next => exact h
        next =>
          split
          next => exact h
          next =>
            intro c hc
            obtain ⟨u, hu, huf⟩ := List.mem_map.mp hc
            subst huf
            by_cases huc : u.id = cid
            · obtain ⟨t, htm, hid⟩ := h c0 hc0m
              exact ⟨t, htm, by simpa [huc] using hid⟩
            · obtain ⟨t, htm, hid⟩ := h u hu
              exact ⟨t, htm, by simpa [huc] using hid⟩
  | deleteComment tid cid =>
    simp only [applySOp, srvDeleteComment]
    split
    next => exact h
    next =>
      split
      next => exact h
      next c0 hf =>
        split
        next => exact h
        next =>
          intro c hc
          exact h c (List.mem_filter.mp hc).1

/-- The no-orphans invariant holds in every store reachable from a fresh
database by any request history. -/
theorem runSOps_orphanFree (ops : List SOp) : orphanFree (runSOps ops) := by
  have hgen : ∀ (l : List SOp) (s : ServerState), orphanFree s →
      orphanFree (l.foldl applySOp s) := by
    intro l
    induction l with
    | nil => intro s hs; exact hs
    | cons op rest ih =>
      intro s hs
      exact ih (applySOp s op) (applySOp_orphanFree s op hs)
  exact hgen ops initServer (by intro c hc; cases hc)

/-- In an orphan-free store, `deleteTask id` leaves no task with that id,
no comment referencing it, and makes `listComments id` fail with
NotFoundError — whether or not the task existed. -/
theorem srvDeleteTask_post (s : ServerState) (id : Nat) (h : orphanFree s) :
    (∀ t ∈ (srvDeleteTask s id).2.tasks, t.id ≠ id) ∧
    (∀ c ∈ (srvDeleteTask s id).2.comments, c.task_id ≠ id) ∧
    srvListComments (srvDeleteTask s id).2 id = .error .notFound := by
  by_cases hex : taskExists s id = true
  · have h2 : (srvDeleteTask s id).2
        = { s with tasks := s.tasks.filter (fun t => t.id != id),
                   comments := s.comments.filter (fun c => c.task_id != id) } := by
      simp [srvDeleteTask, hex]
    rw [h2]
    refine ⟨?_, ?_, ?_⟩
    · intro t ht
      have := (List.mem_filter.mp ht).2
      simpa using this
    · intro c hc
      have := (List.mem_filter.mp hc).2
      simpa using this
    · have hno : taskExists
          ({ s with tasks := s.tasks.filter (fun t => t.id != id),
                    comments := s.comments.filter (fun c => c.task_id != id) }
            : ServerState) id = false := by
        simp [taskExists, List.any_eq_true, List.mem_filter]
      simp [srvListComments, hno]
  · have h2 : (srvDeleteTask s id).2 = s := by
      simp [srvDeleteTask, hex]
    rw [h2]
    have hall : ∀ t ∈ s.tasks, t.id ≠ id := by
      intro t htm
      by_contra heq
      exact hex (by simp [taskExists, List.any_eq_true]; exact ⟨t, htm, heq⟩)
    refine ⟨hall, ?_, ?_⟩
    · intro c hc
      obtain ⟨t, htm, hid⟩ := h c hc
      rw [← hid]
      exact hall t htm
    · have : taskExists s id = false := by
        simpa using hex
      simp [srvListComments, this]

/-- C1: no orphaned comment is observable in any reachable store, and
after `deleteTask(id)` is applied to a reachable store the task is gone,
every one of its comments is gone with it (in the same atomic step), and
a subsequent `listComments(id)` fails with NotFoundError. -/
theorem deleteTask_cascade (ops : List SOp) (id : Nat) :
    orphanFree (runSOps ops) ∧
    (∀ t ∈ (applySOp (runSOps ops) (.deleteTask id)).tasks, t.id ≠ id) ∧
    (∀ c ∈ (applySOp (runSOps ops) (.deleteTask id)).comments, c.task_id ≠ id) ∧
    srvListComments (applySOp (runSOps ops) (.deleteTask id)) id
      = .error .notFound := by
  have hof := runSOps_orphanFree ops
  obtain ⟨h1, h2, h3⟩ := srvDeleteTask_post (runSOps ops) id hof
  exact ⟨hof, h1, h2, h3⟩

/-- C1 witness: the spec's end-to-end scenario — create a task, comment
on it, delete the task: listing the former task's comments fails with
NotFoundError. -/
theorem deleteTask_cascade_witness :
    srvListComments (applySOp (runSOps
      [.createTask "Buy milk" none, .createComment 1 "urgent" none])
      (.deleteTask 1)) 1 = .error .notFound :=
  (deleteTask_cascade [.createTask "Buy milk" none,
    .createComment 1 "urgent" none] 1).2.2.2

/-- C3 witness: a shaped 404 body's message is surfaced verbatim. -/
theorem http_error_message_selection_witness :
    (httpError (http ⟨false, 404, "Not Found", "x"⟩
        (some (.obj [("error", .obj [("message", .str "Task not found")])])))).map
      JsError.message = some "Task not found" :=
  (http_error_message_selection ⟨false, 404, "Not Found", "x"⟩
      (some (.obj [("error", .obj [("message", .str "Task not found")])]))
      "Task not found").1 rfl (by simp [httpBody, Json.getProp]) (by decide)
